import Mathlib

/-!
Verification of the RTMPy core against its specification.

The Python sources embedded here (shallowly, as pure Lean functions over
`List Nat` byte sequences and explicit state records) are:

* `rtmpy/client.py` — the client handshake (`RTMPClientProtocol.decodeHandshake`);
* `rtmpy/rtmp/codec/__init__.py` — the chunk decoder (`Decoder`), the encoder
  channel context (`ChannelContext`) and the encoder tick (`Encoder.writeFrame`);
* `rtmpy/rtmp/event.py` — the typed event codec (`decode` / `encode` and the
  per-event `decode`/`encode` methods);
* `rtmpy/protocol/stream.py` — the stream dispatch layer (`BaseStream`,
  `Stream.publish`, `SubscriberStream`).

Bytes are modelled as `Nat` (values below 256 where it matters), byte strings
as `List Nat`.  Fallible operations return `Option` or `Except`.  Python
exception classes are mirrored by inductive error types.
-/

namespace RTMPy

/-! ### Handshake (rtmpy/client.py) -/

/-- `rtmp.HEADER_BYTE`: the RTMP version byte `0x03`. -/
def HEADER_BYTE : Nat := 0x03

/-- `rtmp.HANDSHAKE_LENGTH`: each handshake payload is 1536 bytes. -/
def HANDSHAKE_LENGTH : Nat := 1536

/-- Outcome of one call to `RTMPClientProtocol.decodeHandshake`:
either it returns without deciding (waiting for more data), dispatches
`HANDSHAKE_FAILURE` with a reason, or dispatches `HANDSHAKE_SUCCESS` after
writing the received peer handshake back to the transport. -/
inductive HandshakeResult
  | waiting
  | failure (reason : String)
  | success (peerHandshake : List Nat)
deriving DecidableEq, Repr

/-- `RTMPClientProtocol.decodeHandshake` (client.py lines 28-58).
`buf` is the receive buffer with its cursor at 0 (as arranged by
`dataReceived`), `my_handshake` the 1536 bytes the client sent after the
header byte.  `buffer.read(n)` from cursor `p` is `(buf.drop p).take n`;
`len(buffer)` is `buf.length`. -/
def decodeHandshake (my_handshake buf : List Nat) : HandshakeResult :=
  if buf.length < 1 then
    .waiting
  else if buf.take 1 ≠ [HEADER_BYTE] then
    .failure "Invalid header byte received"
  else if buf.length < HANDSHAKE_LENGTH * 2 + 1 then
    .waiting
  else if (buf.drop (1 + HANDSHAKE_LENGTH)).take HANDSHAKE_LENGTH ≠ my_handshake then
    .failure "Handshake mismatch"
  else
    .success ((buf.drop 1).take HANDSHAKE_LENGTH)

/-! ### Chunk decoder (rtmpy/rtmp/codec/__init__.py, `Decoder`) -/

/-- The decoder-visible state of a channel currently being assembled.
`Channel` itself lives in `rtmpy/rtmp/__init__.py`; only the fields the
decoder reads (`bodyRemaining`, `frames`) matter here, and both are
determined by the header body length and the bytes received so far. -/
structure DChannel where
  bodyLength : Nat
  bodyReceived : Nat
deriving DecidableEq, Repr

/-- `channel.bodyRemaining`: bytes of the current message still to receive. -/
def DChannel.bodyRemaining (c : DChannel) : Nat :=
  c.bodyLength - c.bodyReceived

/-- Modelled from the spec: `Channel.write` frame counting
(`rtmpy/rtmp/__init__.py` is not part of the sources).  Spec 4.C: "whenever a
full chunk (`frameSize` bytes, or the remaining body if smaller) is
assembled, `frames` increments" — so `frames` counts the full `frameSize`
chunks received plus the final short chunk once the body is complete. -/
def DChannel.frames (c : DChannel) (frameSize : Nat) : Nat :=
  c.bodyReceived / frameSize +
    (if c.bodyReceived = c.bodyLength ∧ c.bodyReceived % frameSize ≠ 0 then 1 else 0)

/-- The decoder state that `readFrame` consults: the bytes remaining in the
receive buffer and the manager's current frame size. -/
structure DecoderState where
  bufferRemaining : Nat
  frameSize : Nat
deriving DecidableEq, Repr

/-- `Decoder.getBytesAvailableForChannel` (codec/__init__.py lines 132-141):
`min(self.buffer.remaining(), channel.bodyRemaining, self.manager.frameSize)`. -/
def getBytesAvailableForChannel (s : DecoderState) (c : DChannel) : Nat :=
  min s.bufferRemaining (min c.bodyRemaining s.frameSize)

/-- Result of `Decoder.readFrame`: how many bytes were drained from the
buffer into the channel, the channel state afterwards, and whether
`currentChannel` stays pinned (`true`) or was reset to `None` (`false`). -/
structure ReadFrameResult where
  drained : Nat
  channel : DChannel
  stillPinned : Bool
deriving DecidableEq, Repr

/-- `Decoder.readFrame` (codec/__init__.py lines 143-168) with
`currentChannel = c` pinned.  It writes
`getBytesAvailableForChannel` many bytes into the channel and clears the pin
when the channel's frame count changed or its body completed. -/
def readFrame (s : DecoderState) (c : DChannel) : ReadFrameResult :=
  let available := getBytesAvailableForChannel s c
  if available = 0 then
    ⟨0, c, true⟩
  else
    let c' : DChannel := ⟨c.bodyLength, c.bodyReceived + available⟩
    if c'.frames s.frameSize ≠ c.frames s.frameSize then
      ⟨available, c', false⟩
    else if c'.bodyRemaining = 0 then
      ⟨available, c', false⟩
    else
      ⟨available, c', true⟩

/-! ### Encoder channel context (rtmpy/rtmp/codec/__init__.py, `ChannelContext`
and `Encoder.writeFrame`) -/

/-- `ChannelContext`: the pending-bytes buffer for one channel attached to the
encoder (cursor rebased to 0 after every `consume`), and the `active` flag. -/
structure ChannelContext where
  buffer : List Nat
  active : Bool
deriving DecidableEq, Repr

/-- `ChannelContext.getData` (codec/__init__.py lines 272-295).  Attempts
`self.buffer.read(length)`; on a short read the cursor is restored, `None` is
returned and the channel is deactivated (`encoder.deactivateChannel`,
`active = False`).  On success the read bytes are consumed.  (The
`len(self.buffer) == 0` disjunct can only hold when the buffer was already
empty, in which case the read also deactivates without consuming.) -/
def ChannelContext.getData (ctx : ChannelContext) (length : Nat) :
    Option (List Nat) × ChannelContext :=
  if length ≤ ctx.buffer.length then
    if ctx.buffer.length = 0 then
      (some (ctx.buffer.take length), { ctx with active := false })
    else
      (some (ctx.buffer.take length), { ctx with buffer := ctx.buffer.drop length })
  else
    (none, { ctx with active := false })

/-- `ChannelContext.write` (codec/__init__.py lines 262-270): appends the data
the channel produced and re-activates the channel if it was inactive.  The
returned `Bool` records whether `encoder.activateChannel` was called. -/
def ChannelContext.write (ctx : ChannelContext) (data : List Nat) :
    ChannelContext × Bool :=
  let ctx' : ChannelContext := { ctx with buffer := ctx.buffer ++ data }
  if ctx.active then (ctx', false) else ({ ctx' with active := true }, true)

/-- `Encoder.getMinimumFrameSize` (codec/__init__.py lines 379-394):
`min(channel.bodyRemaining, self.manager.frameSize)`; raises `RuntimeError`
(here `none`) if that is below 1. -/
def getMinimumFrameSize (bodyRemaining frameSize : Nat) : Option Nat :=
  let available := min bodyRemaining frameSize
  if available < 1 then none else some available

/-- Result of one `Encoder.writeFrame` call: the channel context afterwards
and the encoder output buffer afterwards.  (A header for the frame is
emitted before the body bytes; the header codec `rtmpy/rtmp/codec/header.py`
is not part of the sources, and nothing below depends on the header bytes, so
`out` records the frame body bytes written.) -/
structure EncodeTick where
  ctx : ChannelContext
  out : List Nat
deriving DecidableEq, Repr

/-- `Encoder.writeFrame` (codec/__init__.py lines 396-416) for the current
context `ctx` of a channel with `bodyRemaining` bytes of message left.
`none` models the `RuntimeError` from `getMinimumFrameSize`. -/
def writeFrame (frameSize bodyRemaining : Nat) (ctx : ChannelContext)
    (out : List Nat) : Option EncodeTick :=
  match getMinimumFrameSize bodyRemaining frameSize with
  | none => none
  | some need =>
    match ctx.getData need with
    | (none, ctx') => some ⟨ctx', out⟩
    | (some data, ctx') => some ⟨ctx', out ++ data⟩

/-! ### Event codec (rtmpy/rtmp/event.py)

The per-event `decode`/`encode` methods work on a `BufferedByteStream`
(pyamf): big-endian numeric reads and writes.  A reader is modelled as a
function `List Nat → Option (α × List Nat)` returning the value and the bytes
after the cursor; `none` models the exception raised on a short read.
Writers are partial because the underlying `struct` pack rejects values
outside the field's domain. -/

/-- Big-endian 4-byte encoding of an unsigned 32-bit value. -/
def be32 (n : Nat) : List Nat :=
  [n / 2 ^ 24 % 256, n / 2 ^ 16 % 256, n / 2 ^ 8 % 256, n % 256]

/-- Big-endian 2-byte encoding of an unsigned 16-bit value. -/
def be16 (n : Nat) : List Nat :=
  [n / 2 ^ 8 % 256, n % 256]

/-- `BufferedByteStream.read_ulong`: big-endian unsigned 32-bit read. -/
def read_ulong : List Nat → Option (Nat × List Nat)
  | b0 :: b1 :: b2 :: b3 :: rest =>
    some (b0 * 2 ^ 24 + b1 * 2 ^ 16 + b2 * 2 ^ 8 + b3, rest)
  | _ => none

/-- `BufferedByteStream.write_ulong`: accepts unsigned 32-bit values. -/
def write_ulong (n : Nat) : Option (List Nat) :=
  if n < 2 ^ 32 then some (be32 n) else none

/-- Reinterpret an unsigned 32-bit value as two's-complement signed. -/
def toSigned32 (u : Nat) : Int :=
  if u < 2 ^ 31 then (u : Int) else (u : Int) - 2 ^ 32

/-- `BufferedByteStream.read_long`: big-endian signed 32-bit read. -/
def read_long (bs : List Nat) : Option (Int × List Nat) :=
  (read_ulong bs).map fun p => (toSigned32 p.1, p.2)

/-- `BufferedByteStream.write_long`: accepts signed 32-bit values. -/
def write_long (x : Int) : Option (List Nat) :=
  if -(2 ^ 31) ≤ x ∧ x < 2 ^ 31 then some (be32 (x % 2 ^ 32).toNat) else none

/-- Reinterpret an unsigned 16-bit value as two's-complement signed. -/
def toSigned16 (u : Nat) : Int :=
  if u < 2 ^ 15 then (u : Int) else (u : Int) - 2 ^ 16

/-- `BufferedByteStream.read_short`: big-endian signed 16-bit read. -/
def read_short : List Nat → Option (Int × List Nat)
  | b0 :: b1 :: rest => some (toSigned16 (b0 * 2 ^ 8 + b1), rest)
  | _ => none

/-- `BufferedByteStream.write_short`: accepts signed 16-bit values. -/
def write_short (x : Int) : Option (List Nat) :=
  if -(2 ^ 15) ≤ x ∧ x < 2 ^ 15 then some (be16 (x % 2 ^ 16).toNat) else none

/-- `BufferedByteStream.read_ushort`: big-endian unsigned 16-bit read. -/
def read_ushort : List Nat → Option (Nat × List Nat)
  | b0 :: b1 :: rest => some (b0 * 2 ^ 8 + b1, rest)
  | _ => none

/-- `BufferedByteStream.read_uchar`: unsigned 8-bit read. -/
def read_uchar : List Nat → Option (Nat × List Nat)
  | b :: rest => some (b, rest)
  | _ => none

/-- `BufferedByteStream.write_uchar`: accepts unsigned 8-bit values. -/
def write_uchar (n : Nat) : Option (List Nat) :=
  if n < 2 ^ 8 then some [n] else none

/-- Modelled from the spec: the AMF element values that the external AMF
codec (pyamf, out of scope per spec section 1) moves through
`decodeElement`/`encodeElement`.  The spec (section 6) only requires that
repeated `decodeElement` inverts repeated `encodeElement`; AMF normalization
is the identity in this model. -/
inductive AMFValue
  | number (n : Nat)
  | boolean (b : Bool)
  | utf8 (s : List Nat)
  | null
deriving DecidableEq, Repr

/-- The domain on which the modelled AMF encoding is lossless. -/
def AMFValue.valid : AMFValue → Prop
  | .number n => n < 2 ^ 32
  | .boolean _ => True
  | .utf8 s => s.length < 2 ^ 16
  | .null => True

instance : DecidablePred AMFValue.valid := by
  intro v
  cases v <;> simp [AMFValue.valid] <;> infer_instance

/-- Modelled from the spec: `encodeElement` of the external AMF codec — a
tag byte followed by the payload (numbers as 4 bytes big-endian, strings
length-prefixed with 2 bytes). -/
def encodeElement : AMFValue → List Nat
  | .number n => 0 :: be32 n
  | .boolean b => [1, if b then 1 else 0]
  | .utf8 s => 2 :: (be16 s.length ++ s)
  | .null => [5]

/-- Modelled from the spec: `decodeElement` of the external AMF codec; the
inverse of `encodeElement`, consuming exactly the element's bytes. -/
def decodeElement : List Nat → Option (AMFValue × List Nat)
  | 0 :: rest => (read_ulong rest).map fun p => (.number p.1, p.2)
  | 1 :: b :: rest => some (.boolean (b ≠ 0), rest)
  | 2 :: rest =>
    (read_ushort rest).bind fun p =>
      if p.1 ≤ p.2.length then some (.utf8 (p.2.take p.1), p.2.drop p.1) else none
  | 5 :: rest => some (.null, rest)
  | _ => none

/-- `encodeElement` over a list of elements, concatenated in order
(`Notify.encode` writes `self.argv` element by element). -/
def encodeElements : List AMFValue → List Nat
  | [] => []
  | v :: vs => encodeElement v ++ encodeElements vs

/-- `Notify.decode` argv loop: `while not buf.at_eof():
argv.append(decoder.readElement())`.  The `fuel` argument bounds the number
of iterations; every element consumes at least one byte, so fuel equal to the
buffer length suffices. -/
def decodeElements : Nat → List Nat → Option (List AMFValue)
  | _, [] => some []
  | 0, _ :: _ => none
  | fuel + 1, b :: bs =>
    (decodeElement (b :: bs)).bind fun p =>
      (decodeElements fuel p.2).map fun vs => p.1 :: vs

/-- The typed events of `rtmpy/rtmp/event.py` that appear in `TYPE_MAP`:
`FrameSize`, `BytesRead`, `ControlEvent`, `DownstreamBandwidth`,
`UpstreamBandwidth`, `Notify`, `Invoke`, `AudioData`, `VideoData`. -/
inductive Event
  | frameSize (size : Nat)
  | bytesRead (bytes : Nat)
  | control (ctype value1 value2 value3 : Int)
  | downstreamBandwidth (bandwidth : Nat)
  | upstreamBandwidth (bandwidth : Nat) (extra : Nat)
  | notify (name : AMFValue) (id : AMFValue) (argv : List AMFValue)
  | invoke (name : AMFValue) (id : AMFValue) (argv : List AMFValue)
  | audioData (data : List Nat)
  | videoData (data : List Nat)
deriving DecidableEq, Repr

/-- `ControlEvent.UNDEFINED` (event.py line 196). -/
def ControlEvent.UNDEFINED : Int := -1

/-- Datatype constants (event.py lines 18-46). -/
def FRAME_SIZE : Nat := 0x01
def BYTES_READ : Nat := 0x03
def CONTROL : Nat := 0x04
def DOWNSTREAM_BANDWIDTH : Nat := 0x05
def UPSTREAM_BANDWIDTH : Nat := 0x06
def AUDIO_DATA : Nat := 0x07
def VIDEO_DATA : Nat := 0x08
def NOTIFY : Nat := 0x12
def INVOKE : Nat := 0x14

/-- Membership in `TYPE_MAP` (event.py lines 537-548). -/
def typeMapMember (datatype : Nat) : Bool :=
  datatype = FRAME_SIZE ∨ datatype = BYTES_READ ∨ datatype = CONTROL ∨
    datatype = DOWNSTREAM_BANDWIDTH ∨ datatype = UPSTREAM_BANDWIDTH ∨
    datatype = NOTIFY ∨ datatype = INVOKE ∨ datatype = AUDIO_DATA ∨
    datatype = VIDEO_DATA

/-- The datatype `encode` resolves for an event by looking its class up in
`TYPE_MAP` (event.py lines 610-620). -/
def eventDatatype : Event → Nat
  | .frameSize _ => FRAME_SIZE
  | .bytesRead _ => BYTES_READ
  | .control _ _ _ _ => CONTROL
  | .downstreamBandwidth _ => DOWNSTREAM_BANDWIDTH
  | .upstreamBandwidth _ _ => UPSTREAM_BANDWIDTH
  | .notify _ _ _ => NOTIFY
  | .invoke _ _ _ => INVOKE
  | .audioData _ => AUDIO_DATA
  | .videoData _ => VIDEO_DATA

/-- The Python exception classes of event.py (`DecodeError`,
`TrailingDataError`, `UnknownEventType`) together with the short-read
exception the underlying byte stream raises (`eofError`). -/
inductive EventError
  | decodeError
  | trailingDataError
  | unknownEventType
  | eofError
deriving DecidableEq, Repr

instance {ε α : Type} [DecidableEq ε] [DecidableEq α] :
    DecidableEq (Except ε α)
  | .error a, .error b =>
    if h : a = b then .isTrue (by rw [h])
    else .isFalse fun hc => h (Except.error.inj hc)
  | .error _, .ok _ => .isFalse fun hc => Except.noConfusion hc
  | .ok _, .error _ => .isFalse fun hc => Except.noConfusion hc
  | .ok a, .ok b =>
    if h : a = b then .isTrue (by rw [h])
    else .isFalse fun hc => h (Except.ok.inj hc)

/-- `Notify.decode` / `Invoke.decode` (event.py lines 394-417): read `name`
and `id` as AMF elements, then `argv` until end of body. -/
def decodeNotifyBody (buf : List Nat) :
    Option ((AMFValue × AMFValue × List AMFValue) × List Nat) :=
  (decodeElement buf).bind fun p1 =>
    (decodeElement p1.2).bind fun p2 =>
      (decodeElements p2.2.length p2.2).map fun argv =>
        ((p1.1, p2.1, argv), [])

/-- The per-class `decode` methods dispatched on `datatype`: returns the
event and the bytes left after the cursor, or `none` for a short read. -/
def eventDecodeBody (datatype : Nat) (buf : List Nat) :
    Option (Event × List Nat) :=
  if datatype = FRAME_SIZE then
    (read_ulong buf).map fun p => (.frameSize p.1, p.2)
  else if datatype = BYTES_READ then
    (read_ulong buf).map fun p => (.bytesRead p.1, p.2)
  else if datatype = CONTROL then
    (read_short buf).bind fun p1 =>
      (read_long p1.2).bind fun p2 =>
        (read_long p2.2).bind fun p3 =>
          (read_long p3.2).map fun p4 =>
            (.control p1.1 p2.1 p3.1 p4.1, p4.2)
  else if datatype = DOWNSTREAM_BANDWIDTH then
    (read_ulong buf).map fun p => (.downstreamBandwidth p.1, p.2)
  else if datatype = UPSTREAM_BANDWIDTH then
    (read_ulong buf).bind fun p =>
      (read_uchar p.2).map fun q => (.upstreamBandwidth p.1 q.1, q.2)
  else if datatype = NOTIFY then
    (decodeNotifyBody buf).map fun p => (.notify p.1.1 p.1.2.1 p.1.2.2, p.2)
  else if datatype = INVOKE then
    (decodeNotifyBody buf).map fun p => (.invoke p.1.1 p.1.2.1 p.1.2.2, p.2)
  else if datatype = AUDIO_DATA then
    some (.audioData buf, [])
  else if datatype = VIDEO_DATA then
    some (.videoData buf, [])
  else
    none

/-- `event.decode` (event.py lines 551-587): an unknown datatype raises
`DecodeError` (the `KeyError` branch of `_decode`); otherwise the event
class's `decode` runs on the body and the callback `cb` raises
`TrailingDataError` unless the whole buffer was consumed. -/
def decode (datatype : Nat) (body : List Nat) : Except EventError Event :=
  if typeMapMember datatype then
    match eventDecodeBody datatype body with
    | none => .error .eofError
    | some (e, rest) => if rest = [] then .ok e else .error .trailingDataError
  else
    .error .decodeError

/-- The per-class `encode` methods: the body bytes, or `none` when a value
is outside its field's domain. -/
def encodeBody : Event → Option (List Nat)
  | .frameSize n => write_ulong n
  | .bytesRead n => write_ulong n
  | .control t v1 v2 v3 =>
    (write_short t).bind fun a =>
      (write_long v1).bind fun b =>
        (write_long v2).bind fun c =>
          (write_long v3).map fun d => a ++ b ++ c ++ d
  | .downstreamBandwidth n => write_ulong n
  | .upstreamBandwidth n e =>
    (write_ulong n).bind fun a => (write_uchar e).map fun b => a ++ b
  | .notify nm idv argv =>
    some (encodeElement nm ++ encodeElement idv ++ encodeElements argv)
  | .invoke nm idv argv =>
    some (encodeElement nm ++ encodeElement idv ++ encodeElements argv)
  | .audioData d => some d
  | .videoData d => some d

/-- `event.encode` (event.py lines 590-631): resolves the datatype from
`TYPE_MAP` by the event's class and returns `(datatype, body)`. -/
def encode (e : Event) : Option (Nat × List Nat) :=
  (encodeBody e).map fun b => (eventDatatype e, b)

/-- `event.get_type_class` (event.py lines 634-648): `TYPE_MAP[datatype]`,
raising `UnknownEventType` on a `KeyError`.  The class is represented by its
datatype key. -/
def get_type_class (datatype : Nat) : Except EventError Nat :=
  if typeMapMember datatype then .ok datatype else .error .unknownEventType

/-- The encodable domain of an event's fields: every write in its `encode`
method succeeds. -/
def Event.valid : Event → Prop
  | .frameSize n => n < 2 ^ 32
  | .bytesRead n => n < 2 ^ 32
  | .control t v1 v2 v3 =>
    (-(2 ^ 15) ≤ t ∧ t < 2 ^ 15) ∧ (-(2 ^ 31) ≤ v1 ∧ v1 < 2 ^ 31) ∧
      (-(2 ^ 31) ≤ v2 ∧ v2 < 2 ^ 31) ∧ (-(2 ^ 31) ≤ v3 ∧ v3 < 2 ^ 31)
  | .downstreamBandwidth n => n < 2 ^ 32
  | .upstreamBandwidth n e => n < 2 ^ 32 ∧ e < 2 ^ 8
  | .notify nm idv argv =>
    nm.valid ∧ idv.valid ∧ ∀ v ∈ argv, v.valid
  | .invoke nm idv argv =>
    nm.valid ∧ idv.valid ∧ ∀ v ∈ argv, v.valid
  | .audioData _ => True
  | .videoData _ => True

/-! ### Stream timestamps (rtmpy/protocol/stream.py, `BaseStream`) -/

/-- `BaseStream.setTimestamp` (stream.py lines 45-51): relative updates add
`time` to the stream timestamp, absolute updates replace it. -/
def setTimestamp (timestamp time : Nat) (relative : Bool) : Nat :=
  if relative then timestamp + time else time

/-- The timestamp update performed by `BaseStream.eventReceived`
(stream.py lines 93-105): `self.setTimestamp(header.timestamp)` — note the
`relative` parameter defaults to `True`. -/
def eventReceivedTimestamp (streamTimestamp headerTimestamp : Nat) : Nat :=
  setTimestamp streamTimestamp headerTimestamp true

/-! ### Named streams and publish (rtmpy/protocol/stream.py, `Stream` and
`SubscriberStream`) -/

/-- A subscriber registered on a `SubscriberStream`.  Its callbacks are
application code outside this repository; `raises` records whether a callback
invocation raises an exception, `id` identifies the subscriber. -/
structure Subscriber where
  id : Nat
  raises : Bool
deriving DecidableEq, Repr

/-- `SubscriberStream` (stream.py lines 274-322): an insertion-ordered
subscriber list and a single publisher slot (`None` when unset).  Clients are
identified by `Nat`. -/
structure SubscriberStream where
  subscribers : List Subscriber
  publisher : Option Nat
deriving DecidableEq, Repr

/-- `SubscriberStream._notify` (stream.py lines 295-299) with the delivery
arguments abstracted away: calls each subscriber's method in insertion order.
There is no exception handling in the loop, so the first subscriber whose
callback raises aborts the iteration.  Returns the ids of the subscribers
that were actually called successfully before any abort, and whether the loop
was aborted by an exception. -/
def notifyAll : List Subscriber → List Nat × Bool
  | [] => ([], false)
  | s :: rest =>
    if s.raises then ([], true)
    else
      let r := notifyAll rest
      (s.id :: r.1, r.2)

/-- `SubscriberStream._notify` for `audioDataReceived`/`videoDataReceived`
(stream.py lines 295-299 and 315-319): each successful delivery carries
`(data, time)`.  Returns the deliveries made, in insertion order, and whether
an exception aborted the loop. -/
def notifyDeliver : List Subscriber → List Nat → Nat →
    List (Nat × List Nat × Nat) × Bool
  | [], _, _ => ([], false)
  | s :: rest, data, time =>
    if s.raises then ([], true)
    else
      let r := notifyDeliver rest data time
      ((s.id, data, time) :: r.1, r.2)

/-- `SubscriberStream.audioDataReceived` (stream.py lines 318-319). -/
def SubscriberStream.audioDataReceived (s : SubscriberStream)
    (data : List Nat) (time : Nat) : List (Nat × List Nat × Nat) × Bool :=
  notifyDeliver s.subscribers data time

/-- `SubscriberStream.setPublisher` (stream.py lines 301-306): stores the
publisher and notifies `streamPublished` to all subscribers. -/
def SubscriberStream.setPublisher (s : SubscriberStream) (p : Nat) :
    SubscriberStream × (List Nat × Bool) :=
  ({ s with publisher := some p }, notifyAll s.subscribers)

/-- `SubscriberStream.removePublisher` (stream.py lines 308-313): clears the
publisher slot and notifies `streamUnpublished` to all subscribers.  The
`publisher` argument of the Python method is taken but never consulted. -/
def SubscriberStream.removePublisher (s : SubscriberStream) (p : Nat) :
    SubscriberStream × (List Nat × Bool) :=
  ({ s with publisher := none }, notifyAll s.subscribers)

/-- The status codes `Stream.publish` can reply with. -/
inductive PublishStatus
  | badName
  | start
deriving DecidableEq, Repr

/-- `Stream.publish` (stream.py lines 197-244), restricted to its effect on
the named stream and the status reply.  `onPublishResult` is the boolean the
application hook `onPublish` resolves with (`checkPublishRequest` treats
exactly `False` as a rejection).  If the named stream already has a publisher
(`if self.stream.publisher:`) the reply is `NetStream.Publish.BadName` and
nothing changes; on hook rejection likewise; otherwise a stream-begin control
event and `NetStream.Publish.Start` are sent and the caller becomes the
publisher via `setPublisher`. -/
def Stream.publish (s : SubscriberStream) (onPublishResult : Bool)
    (client : Nat) : SubscriberStream × PublishStatus :=
  if s.publisher.isSome then
    (s, .badName)
  else if onPublishResult = false then
    (s, .badName)
  else
    ((s.setPublisher client).1, .start)

/-! ### Round-trip lemmas for the byte-level readers and writers -/

theorem read_ulong_be32 (n : Nat) (rest : List Nat) (h : n < 2 ^ 32) :
    read_ulong (be32 n ++ rest) = some (n, rest) := by
  simp only [be32, List.cons_append, List.nil_append, read_ulong]
  refine congrArg some (Prod.ext ?_ rfl)
  simp only
  omega

theorem read_ushort_be16 (n : Nat) (rest : List Nat) (h : n < 2 ^ 16) :
    read_ushort (be16 n ++ rest) = some (n, rest) := by
  simp only [be16, List.cons_append, List.nil_append, read_ushort]
  refine congrArg some (Prod.ext ?_ rfl)
  simp only
  omega

theorem read_long_write_long (x : Int) (bs rest : List Nat)
    (h : write_long x = some bs) :
    read_long (bs ++ rest) = some (x, rest) := by
  simp only [write_long] at h
  split at h
  case isFalse => exact absurd h (by simp)
  case isTrue hdom =>
    have hbs : bs = be32 (x % 2 ^ 32).toNat := (Option.some_inj.mp h).symm
    have hlt : (x % 2 ^ 32).toNat < 2 ^ 32 := by omega
    rw [hbs, read_long, read_ulong_be32 _ _ hlt]
    simp only [Option.map_some']
    refine congrArg some (Prod.ext ?_ rfl)
    simp only [toSigned32]
    split <;> omega

theorem read_short_write_short (x : Int) (bs rest : List Nat)
    (h : write_short x = some bs) :
    read_short (bs ++ rest) = some (x, rest) := by
  simp only [write_short] at h
  split at h
  case isFalse => exact absurd h (by simp)
  case isTrue hdom =>
    have hbs : bs = be16 (x % 2 ^ 16).toNat := (Option.some_inj.mp h).symm
    have hlt : (x % 2 ^ 16).toNat < 2 ^ 16 := by omega
    subst hbs
    simp only [be16, List.cons_append, List.nil_append, read_short]
    refine congrArg some (Prod.ext ?_ rfl)
    simp only [toSigned16]
    split <;> omega

theorem decodeElement_encodeElement (v : AMFValue) (rest : List Nat)
    (h : v.valid) :
    decodeElement (encodeElement v ++ rest) = some (v, rest) := by
  cases v with
  | number n =>
    simp only [AMFValue.valid] at h
    simp only [encodeElement, List.cons_append, decodeElement,
      read_ulong_be32 n rest h, Option.map_some']
  | boolean b =>
    cases b <;> simp [encodeElement, decodeElement]
  | utf8 s =>
    simp only [AMFValue.valid] at h
    simp only [encodeElement, List.cons_append, List.append_assoc,
      decodeElement, read_ushort_be16 s.length (s ++ rest) h, Option.some_bind]
    have hle : s.length ≤ (s ++ rest).length := by
      simp [List.length_append]
    rw [if_pos hle, List.take_left, List.drop_left]
  | null =>
    simp [encodeElement, decodeElement]

theorem encodeElement_length_pos (v : AMFValue) :
    0 < (encodeElement v).length := by
  cases v <;> simp [encodeElement, be32, be16]

theorem decodeElements_cons (fuel b : Nat) (bs : List Nat) :
    decodeElements (fuel + 1) (b :: bs) =
      (decodeElement (b :: bs)).bind fun p =>
        (decodeElements fuel p.2).map fun ws => p.1 :: ws := rfl

theorem decodeElements_encodeElements (vs : List AMFValue)
    (h : ∀ v ∈ vs, v.valid) :
    ∀ fuel, (encodeElements vs).length ≤ fuel →
      decodeElements fuel (encodeElements vs) = some vs := by
  induction vs with
  | nil =>
    intro fuel _
    cases fuel <;> simp [encodeElements, decodeElements]
  | cons v vs ih =>
    intro fuel hfuel
    have hv : v.valid := h v (List.mem_cons_self v vs)
    have hvs : ∀ w ∈ vs, w.valid := fun w hw => h w (List.mem_cons_of_mem v hw)
    have hpos : 0 < (encodeElement v).length := encodeElement_length_pos v
    have hlen : (encodeElements (v :: vs)).length =
        (encodeElement v).length + (encodeElements vs).length := by
      simp [encodeElements, List.length_append]
    obtain ⟨b, bs, hcons⟩ : ∃ b bs, encodeElements (v :: vs) = b :: bs := by
      cases hev : encodeElements (v :: vs) with
      | nil =>
        rw [hev] at hlen
        simp at hlen
        omega
      | cons b bs => exact ⟨b, bs, rfl⟩
    obtain ⟨f, rfl⟩ : ∃ f, fuel = f + 1 := by
      refine ⟨fuel - 1, ?_⟩
      omega
    rw [hcons, decodeElements_cons, ← hcons]
    have hunf : encodeElements (v :: vs) = encodeElement v ++ encodeElements vs := rfl
    rw [hunf, decodeElement_encodeElement v _ hv, Option.some_bind]
    have hf : (encodeElements vs).length ≤ f := by omega
    rw [ih hvs f hf]
    rfl

instance : DecidablePred Event.valid := by
  intro e
  cases e <;> simp [Event.valid] <;> infer_instance

/-- `encodeBody` on a valid `control` event: the four writes succeed. -/
theorem encodeBody_control (t v1 v2 v3 : Int) (a b c d : List Nat)
    (ha : write_short t = some a) (hb : write_long v1 = some b)
    (hc : write_long v2 = some c) (hd : write_long v3 = some d) :
    encodeBody (.control t v1 v2 v3) = some (a ++ b ++ c ++ d) := by
  simp [encodeBody, ha, hb, hc, hd]

/-- **C3** — For every event `e` of a type in the codec's type map
(`FrameSize`, `BytesRead`, `ControlEvent`, `DownstreamBandwidth`,
`UpstreamBandwidth`, `AudioData`, `VideoData`, and `Notify`/`Invoke` modulo
AMF normalization) whose fields are in their encodable domains, decoding the
datatype and body produced by `encode e` yields an event structurally equal
to `e`. -/
theorem event_decode_encode_roundtrip (e : Event) (h : e.valid) :
    ∃ body, encode e = some (eventDatatype e, body) ∧
      decode (eventDatatype e) body = Except.ok e := by
  cases e with
  | frameSize n =>
    simp only [Event.valid] at h
    refine ⟨be32 n, ?_, ?_⟩
    · simp only [encode, encodeBody]
      rw [write_ulong, if_pos h]
      rfl
    · have hr := read_ulong_be32 n [] h
      rw [List.append_nil] at hr
      simp [decode, typeMapMember, eventDatatype, eventDecodeBody, FRAME_SIZE,
        BYTES_READ, CONTROL, DOWNSTREAM_BANDWIDTH, UPSTREAM_BANDWIDTH, NOTIFY,
        INVOKE, AUDIO_DATA, VIDEO_DATA, hr]
  | bytesRead n =>
    simp only [Event.valid] at h
    refine ⟨be32 n, ?_, ?_⟩
    · simp only [encode, encodeBody]
      rw [write_ulong, if_pos h]
      rfl
    · have hr := read_ulong_be32 n [] h
      rw [List.append_nil] at hr
      simp [decode, typeMapMember, eventDatatype, eventDecodeBody, FRAME_SIZE,
        BYTES_READ, CONTROL, DOWNSTREAM_BANDWIDTH, UPSTREAM_BANDWIDTH, NOTIFY,
        INVOKE, AUDIO_DATA, VIDEO_DATA, hr]
  | control t v1 v2 v3 =>
    obtain ⟨ht, h1, h2, h3⟩ := h
    obtain ⟨a, ha⟩ : ∃ a, write_short t = some a :=
      ⟨_, by rw [write_short, if_pos ht]⟩
    obtain ⟨b, hb⟩ : ∃ b, write_long v1 = some b :=
      ⟨_, by rw [write_long, if_pos h1]⟩
    obtain ⟨c, hc⟩ : ∃ c, write_long v2 = some c :=
      ⟨_, by rw [write_long, if_pos h2]⟩
    obtain ⟨d, hd⟩ : ∃ d, write_long v3 = some d :=
      ⟨_, by rw [write_long, if_pos h3]⟩
    refine ⟨a ++ b ++ c ++ d, ?_, ?_⟩
    · simp [encode, encodeBody_control t v1 v2 v3 a b c d ha hb hc hd]
    · have hra : read_short (a ++ (b ++ (c ++ d))) = some (t, b ++ (c ++ d)) :=
        read_short_write_short t a (b ++ (c ++ d)) ha
      have hrb : read_long (b ++ (c ++ d)) = some (v1, c ++ d) :=
        read_long_write_long v1 b (c ++ d) hb
      have hrc : read_long (c ++ d) = some (v2, d) :=
        read_long_write_long v2 c d hc
      have hrd : read_long d = some (v3, []) := by
        have := read_long_write_long v3 d [] hd
        rwa [List.append_nil] at this
      simp [decode, typeMapMember, eventDatatype, eventDecodeBody, FRAME_SIZE,
        BYTES_READ, CONTROL, DOWNSTREAM_BANDWIDTH, UPSTREAM_BANDWIDTH, NOTIFY,
        INVOKE, AUDIO_DATA, VIDEO_DATA, List.append_assoc, hra, hrb, hrc, hrd]
  | downstreamBandwidth n =>
    simp only [Event.valid] at h
    refine ⟨be32 n, ?_, ?_⟩
    · simp only [encode, encodeBody]
      rw [write_ulong, if_pos h]
      rfl
    · have hr := read_ulong_be32 n [] h
      rw [List.append_nil] at hr
      simp [decode, typeMapMember, eventDatatype, eventDecodeBody, FRAME_SIZE,
        BYTES_READ, CONTROL, DOWNSTREAM_BANDWIDTH, UPSTREAM_BANDWIDTH, NOTIFY,
        INVOKE, AUDIO_DATA, VIDEO_DATA, hr]
  | upstreamBandwidth n x =>
    obtain ⟨hn, hx⟩ := h
    refine ⟨be32 n ++ [x], ?_, ?_⟩
    · simp only [encode, encodeBody]
      rw [write_ulong, if_pos hn, write_uchar, if_pos hx]
      rfl
    · have hr := read_ulong_be32 n [x] hn
      simp [decode, typeMapMember, eventDatatype, eventDecodeBody, FRAME_SIZE,
        BYTES_READ, CONTROL, DOWNSTREAM_BANDWIDTH, UPSTREAM_BANDWIDTH, NOTIFY,
        INVOKE, AUDIO_DATA, VIDEO_DATA, hr, read_uchar]
  | notify nm idv argv =>
    obtain ⟨hnm, hid, hargv⟩ := h
    refine ⟨encodeElement nm ++ encodeElement idv ++ encodeElements argv, ?_, ?_⟩
    · simp [encode, encodeBody]
    · have h1 : decodeElement
          (encodeElement nm ++ (encodeElement idv ++ encodeElements argv)) =
          some (nm, encodeElement idv ++ encodeElements argv) :=
        decodeElement_encodeElement nm _ hnm
      have h2 : decodeElement (encodeElement idv ++ encodeElements argv) =
          some (idv, encodeElements argv) :=
        decodeElement_encodeElement idv _ hid
      have h3 : decodeElements (encodeElements argv).length
          (encodeElements argv) = some argv :=
        decodeElements_encodeElements argv hargv _ le_rfl
      simp [decode, typeMapMember, eventDatatype, eventDecodeBody, FRAME_SIZE,
        BYTES_READ, CONTROL, DOWNSTREAM_BANDWIDTH, UPSTREAM_BANDWIDTH, NOTIFY,
        INVOKE, AUDIO_DATA, VIDEO_DATA, decodeNotifyBody, List.append_assoc,
        h1, h2, h3]
  | invoke nm idv argv =>
    obtain ⟨hnm, hid, hargv⟩ := h
    refine ⟨encodeElement nm ++ encodeElement idv ++ encodeElements argv, ?_, ?_⟩
    · simp [encode, encodeBody]
    · have h1 : decodeElement
          (encodeElement nm ++ (encodeElement idv ++ encodeElements argv)) =
          some (nm, encodeElement idv ++ encodeElements argv) :=
        decodeElement_encodeElement nm _ hnm
      have h2 : decodeElement (encodeElement idv ++ encodeElements argv) =
          some (idv, encodeElements argv) :=
        decodeElement_encodeElement idv _ hid
      have h3 : decodeElements (encodeElements argv).length
          (encodeElements argv) = some argv :=
        decodeElements_encodeElements argv hargv _ le_rfl
      simp [decode, typeMapMember, eventDatatype, eventDecodeBody, FRAME_SIZE,
        BYTES_READ, CONTROL, DOWNSTREAM_BANDWIDTH, UPSTREAM_BANDWIDTH, NOTIFY,
        INVOKE, AUDIO_DATA, VIDEO_DATA, decodeNotifyBody, List.append_assoc,
        h1, h2, h3]
  | audioData d =>
    refine ⟨d, ?_, ?_⟩
    · simp [encode, encodeBody]
    · simp [decode, typeMapMember, eventDatatype, eventDecodeBody, FRAME_SIZE,
        BYTES_READ, CONTROL, DOWNSTREAM_BANDWIDTH, UPSTREAM_BANDWIDTH, NOTIFY,
        INVOKE, AUDIO_DATA, VIDEO_DATA]
  | videoData d =>
    refine ⟨d, ?_, ?_⟩
    · simp [encode, encodeBody]
    · simp [decode, typeMapMember, eventDatatype, eventDecodeBody, FRAME_SIZE,
        BYTES_READ, CONTROL, DOWNSTREAM_BANDWIDTH, UPSTREAM_BANDWIDTH, NOTIFY,
        INVOKE, AUDIO_DATA, VIDEO_DATA]

/-- Witness for the round-trip theorem at a concrete `Invoke` event with an
AMF argument list, a control event and an audio packet. -/
theorem event_decode_encode_roundtrip_witness :
    Event.valid (.invoke (.utf8 [112, 117, 98]) (.number 1)
        [.boolean true, .null, .number 7]) ∧
      (∃ body,
        encode (.invoke (.utf8 [112, 117, 98]) (.number 1)
            [.boolean true, .null, .number 7]) =
          some (eventDatatype (.invoke (.utf8 [112, 117, 98]) (.number 1)
            [.boolean true, .null, .number 7]), body) ∧
        decode (eventDatatype (.invoke (.utf8 [112, 117, 98]) (.number 1)
            [.boolean true, .null, .number 7])) body =
          Except.ok (.invoke (.utf8 [112, 117, 98]) (.number 1)
            [.boolean true, .null, .number 7])) :=
  ⟨by decide, event_decode_encode_roundtrip _ (by decide)⟩

/-- **C1** — Client handshake: after sending `0x03` followed by its 1536-byte
`myHandshake`, for every received byte sequence the client fails the
handshake exactly when the leading byte is not `0x03` or when the second
1536-byte block does not byte-equal `myHandshake`; when at least
`1 + 1536 + 1536` bytes are buffered and both checks pass, it writes the
first 1536-byte block (`peerHandshake`) back to the peer and signals
handshake success; with fewer bytes buffered (but a correct leading byte) it
makes no decision and waits. -/
theorem client_handshake_spec (my buf : List Nat) :
    ((∃ r, decodeHandshake my buf = .failure r) ↔
      ((1 ≤ buf.length ∧ buf.take 1 ≠ [HEADER_BYTE]) ∨
        (HANDSHAKE_LENGTH * 2 + 1 ≤ buf.length ∧
          (buf.drop (1 + HANDSHAKE_LENGTH)).take HANDSHAKE_LENGTH ≠ my))) ∧
    (HANDSHAKE_LENGTH * 2 + 1 ≤ buf.length → buf.take 1 = [HEADER_BYTE] →
      (buf.drop (1 + HANDSHAKE_LENGTH)).take HANDSHAKE_LENGTH = my →
      decodeHandshake my buf =
        .success ((buf.drop 1).take HANDSHAKE_LENGTH)) ∧
    (buf.take 1 = [HEADER_BYTE] → buf.length < HANDSHAKE_LENGTH * 2 + 1 →
      decodeHandshake my buf = .waiting) ∧
    (buf.length = 0 → decodeHandshake my buf = .waiting) := by
  unfold decodeHandshake
  split_ifs with h1 h2 h3 h4
  · refine ⟨⟨?_, ?_⟩, ?_, ?_, ?_⟩
    · rintro ⟨r, hr⟩
      exact hr.elim
    · rintro (⟨hl, _⟩ | ⟨hl, _⟩) <;> omega
    · intro hl _ _
      exact absurd hl (by omega)
    · intro _ _
      trivial
    · intro _
      trivial
  · refine ⟨⟨?_, ?_⟩, ?_, ?_, ?_⟩
    · intro _
      exact Or.inl ⟨by omega, h2⟩
    · intro _
      exact ⟨_, rfl⟩
    · intro _ hh _
      exact absurd hh h2
    · intro hh _
      exact absurd hh h2
    · intro hl
      exact absurd hl (by omega)
  · refine ⟨⟨?_, ?_⟩, ?_, ?_, ?_⟩
    · rintro ⟨r, hr⟩
      exact hr.elim
    · rintro (⟨_, hne⟩ | ⟨hl, _⟩)
      · exact (h2 hne).elim
      · exact absurd hl (by omega)
    · intro hl _ _
      exact absurd hl (by omega)
    · intro _ _
      trivial
    · intro _
      trivial
  · refine ⟨⟨?_, ?_⟩, ?_, ?_, ?_⟩
    · intro _
      exact Or.inr ⟨by omega, h4⟩
    · intro _
      exact ⟨_, rfl⟩
    · intro _ _ he
      exact absurd he h4
    · intro _ hl
      exact absurd hl h3
    · intro hl
      exact absurd hl (by omega)
  · refine ⟨⟨?_, ?_⟩, ?_, ?_, ?_⟩
    · rintro ⟨r, hr⟩
      exact hr.elim
    · rintro (⟨_, hne⟩ | ⟨_, hne⟩)
      · exact (h2 hne).elim
      · exact (h4 hne).elim
    · intro _ _ _
      trivial
    · intro _ hl
      exact absurd hl h3
    · intro hl
      exact absurd hl (by omega)

/-- Witness for C1: a complete well-formed exchange (version byte, a peer
block of `9`s, an echo equal to the client's block of `7`s) succeeds and
writes the peer block back. -/
theorem client_handshake_spec_witness :
    decodeHandshake (List.replicate 1536 7)
        (3 :: (List.replicate 1536 9 ++ List.replicate 1536 7)) =
      .success (((3 :: (List.replicate 1536 9 ++ List.replicate 1536 7)).drop 1).take
        HANDSHAKE_LENGTH) := by
  have hlen : (3 :: (List.replicate 1536 9 ++ List.replicate (1536 : Nat) 7)).length =
      3073 := by
    rw [List.length_cons, List.length_append, List.length_replicate,
      List.length_replicate]
  refine (client_handshake_spec (List.replicate 1536 7) _).2.1 ?_ ?_ ?_
  · rw [hlen]
    decide
  · rfl
  · show ((3 :: (List.replicate 1536 9 ++ List.replicate 1536 7)).drop 1537).take 1536 =
      List.replicate 1536 7
    rw [show (1537 : Nat) = 1536 + 1 from rfl, List.drop_succ_cons,
      List.drop_left' (List.length_replicate 1536 9), List.take_replicate,
      Nat.min_self]

/-- **C2** — The claim states that a pinned mid-frame resume drains at most
`min(remaining buffer bytes, channel.bodyRemaining,
frameSize - (channel.bodyReceived mod frameSize))` bytes, i.e. never past
the next frame boundary.  The code computes
`min(remaining, bodyRemaining, frameSize)` without the `mod` correction, so
it drains past the boundary: with `frameSize = 128` a first tick with 100
buffered bytes of a 256-byte body leaves the channel pinned mid-frame at
`bodyReceived = 100`, and the resume tick with 157 buffered bytes drains 128
bytes where the frame boundary is only 28 bytes away. -/
theorem decoder_overdrain_midframe :
    readFrame ⟨100, 128⟩ ⟨256, 0⟩ =
      ⟨100, ⟨256, 100⟩, true⟩ ∧
    (readFrame ⟨157, 128⟩ ⟨256, 100⟩).drained = 128 ∧
    (⟨256, 100⟩ : DChannel).bodyReceived % 128 ≠ 0 ∧
    0 < (⟨256, 100⟩ : DChannel).bodyRemaining ∧
    ¬((readFrame ⟨157, 128⟩ ⟨256, 100⟩).drained ≤
        min 157 (min ((⟨256, 100⟩ : DChannel).bodyRemaining)
          (128 - (⟨256, 100⟩ : DChannel).bodyReceived % 128))) := by
  decide

/-- **C4 counterexample** — decoding the unknown datatype `0x02` fails with
`DecodeError` (the `KeyError` branch of `decode._decode` raises
`DecodeError`, not `UnknownEventType`). -/
theorem decode_unknown_counterexample :
    decode 0x02 [] = .error .decodeError ∧
    decode 0x02 [] ≠ .error .unknownEventType := by
  decide

/-- **C4 (amended)** — For every datatype value not present in the event type
map and every body, `decode` fails with the `DecodeError` error;
`UnknownEventType` is what `get_type_class` (not `decode`) raises for such a
datatype. -/
theorem decode_unknown_datatype (datatype : Nat) (body : List Nat)
    (h : typeMapMember datatype = false) :
    decode datatype body = .error .decodeError ∧
    get_type_class datatype = .error .unknownEventType := by
  constructor
  · simp [decode, h]
  · simp [get_type_class, h]

/-- Witness for the amended C4 at the concrete unknown datatype `0x02`. -/
theorem decode_unknown_datatype_witness :
    typeMapMember 0x02 = false ∧
      (decode 0x02 [1, 2, 3] = .error .decodeError ∧
        get_type_class 0x02 = .error .unknownEventType) :=
  ⟨by decide, decode_unknown_datatype 0x02 [1, 2, 3] (by decide)⟩

/-- **C5 counterexample** — with `frameSize = 128` and 200 body bytes
remaining but only 10 bytes buffered in the context, `writeFrame` writes
nothing but *deactivates* the context (`active = false`); the claim's
"keeps the context active" fails. -/
theorem encoder_defer_counterexample :
    writeFrame 128 200 ⟨List.replicate 10 0, true⟩ [] =
      some ⟨⟨List.replicate 10 0, false⟩, []⟩ ∧
    writeFrame 128 200 ⟨List.replicate 10 0, true⟩ [] ≠
      some ⟨⟨List.replicate 10 0, true⟩, []⟩ := by
  decide

/-- **C5 (amended)** — On an encoder tick, if the selected channel's context
buffer holds fewer bytes than the minimum frame fill
`min(channel.bodyRemaining, frameSize)`, the encoder defers: it writes
nothing for that channel and keeps the buffered bytes, but it *deactivates*
the context (`active := false`, `deactivateChannel`); the context is
re-activated (and the frame retried) when the channel next delivers data
through `ChannelContext.write`. -/
theorem encoder_defer (frameSize bodyRemaining : Nat) (ctx : ChannelContext)
    (out : List Nat) (hpos : 0 < min bodyRemaining frameSize)
    (hshort : ctx.buffer.length < min bodyRemaining frameSize) :
    writeFrame frameSize bodyRemaining ctx out =
      some ⟨⟨ctx.buffer, false⟩, out⟩ ∧
    ∀ data, ((⟨ctx.buffer, false⟩ : ChannelContext).write data).1.active = true := by
  have hmin : getMinimumFrameSize bodyRemaining frameSize =
      some (min bodyRemaining frameSize) := by
    unfold getMinimumFrameSize
    rw [if_neg (by omega : ¬min bodyRemaining frameSize < 1)]
  have hget : ctx.getData (min bodyRemaining frameSize) =
      (none, { ctx with active := false }) := by
    unfold ChannelContext.getData
    rw [if_neg (by omega : ¬min bodyRemaining frameSize ≤ ctx.buffer.length)]
  constructor
  · simp only [writeFrame, hmin, hget]
  · intro data
    rfl

/-- Witness for the amended C5: 10 buffered bytes against a minimum frame
fill of 128. -/
theorem encoder_defer_witness :
    (0 < min 200 128 ∧
        (⟨List.replicate 10 0, true⟩ : ChannelContext).buffer.length <
          min 200 128) ∧
      (writeFrame 128 200 ⟨List.replicate 10 0, true⟩ [] =
          some ⟨⟨List.replicate 10 0, false⟩, []⟩ ∧
        ∀ data,
          ((⟨List.replicate 10 0, false⟩ : ChannelContext).write data).1.active =
            true) :=
  ⟨⟨by decide, by decide⟩,
    encoder_defer 128 200 ⟨List.replicate 10 0, true⟩ [] (by decide) (by decide)⟩

/-- **C6 counterexample** — a stream whose timestamp is `5` receiving an
event whose header carries timestamp `10` ends with timestamp `15`, not
`10`: `eventReceived` calls `setTimestamp(header.timestamp)` whose
`relative` parameter defaults to `True`. -/
theorem dispatch_timestamp_counterexample :
    eventReceivedTimestamp 5 10 = 15 ∧ eventReceivedTimestamp 5 10 ≠ 10 := by
  decide

/-- **C6 (amended)** — For every decoded event arriving on a channel, after
dispatch the stream's timestamp equals its previous value *plus* the
timestamp carried in the channel's current header (the dispatcher applies
the header timestamp as a relative update); it equals the header timestamp
itself only when the previous stream timestamp was 0. -/
theorem dispatch_timestamp_relative (streamTs headerTs : Nat) :
    eventReceivedTimestamp streamTs headerTs = streamTs + headerTs := by
  simp [eventReceivedTimestamp, setTimestamp]

/-- **C7** — For every named stream, at most one publisher exists at any
time: a publish request on a named stream that already has a publisher
replies with status `NetStream.Publish.BadName` and leaves the existing
publisher binding unchanged; only a publish on a publisher-free stream
accepted by the application hook sets the caller as publisher. -/
theorem publish_at_most_one (s : SubscriberStream) (hook : Bool)
    (client : Nat) :
    (∀ p, s.publisher = some p →
      Stream.publish s hook client = (s, .badName)) ∧
    (s.publisher = none → hook = true →
      Stream.publish s hook client =
        ({ s with publisher := some client }, .start)) ∧
    (s.publisher = none → hook = false →
      Stream.publish s hook client = (s, .badName)) ∧
    ((Stream.publish s hook client).1.publisher ≠ s.publisher →
      s.publisher = none ∧ hook = true ∧
        (Stream.publish s hook client).1.publisher = some client) := by
  obtain ⟨subs, pub⟩ := s
  cases pub <;> cases hook <;>
    simp [Stream.publish, SubscriberStream.setPublisher]

/-- Witness for C7: a publish on a free stream accepted by the hook succeeds
and installs the caller; a publish on an occupied stream is refused and the
binding is untouched. -/
theorem publish_at_most_one_witness :
    Stream.publish ⟨[], none⟩ true 42 = (⟨[], some 42⟩, .start) ∧
      Stream.publish ⟨[], some 1⟩ true 42 = (⟨[], some 1⟩, .badName) :=
  ⟨(publish_at_most_one ⟨[], none⟩ true 42).2.1 rfl rfl,
    (publish_at_most_one ⟨[], some 1⟩ true 42).1 1 rfl⟩

/-- **C9 counterexample** — with subscribers `1`, `2`, `3` in insertion order
where subscriber `2`'s callback raises, the audio fan-out delivers only to
subscriber `1`: subscriber `3` receives nothing, contradicting "every other
current subscriber still receives the delivery". -/
theorem fanout_counterexample :
    SubscriberStream.audioDataReceived
        ⟨[⟨1, false⟩, ⟨2, true⟩, ⟨3, false⟩], none⟩ [9] 7 =
      ([(1, [9], 7)], true) ∧
    (SubscriberStream.audioDataReceived
        ⟨[⟨1, false⟩, ⟨2, true⟩, ⟨3, false⟩], none⟩ [9] 7).1 ≠
      [(1, [9], 7), (3, [9], 7)] := by
  decide

/-- Helper for C9/C10: a raising subscriber aborts `_notify` after the
non-raising prefix has been delivered. -/
theorem notifyDeliver_abort (pre : List Subscriber) (x : Subscriber)
    (post : List Subscriber) (data : List Nat) (time : Nat)
    (hpre : ∀ y ∈ pre, y.raises = false) (hx : x.raises = true) :
    notifyDeliver (pre ++ x :: post) data time =
      (pre.map fun y => (y.id, data, time), true) := by
  induction pre with
  | nil => simp [notifyDeliver, hx]
  | cons y ys ih =>
    have hy : y.raises = false := hpre y (List.mem_cons_self y ys)
    have hys : ∀ z ∈ ys, z.raises = false :=
      fun z hz => hpre z (List.mem_cons_of_mem y hz)
    simp only [List.cons_append, notifyDeliver, hy, Bool.false_eq_true,
      if_false, List.append_eq, ih hys, List.map_cons]

/-- **C9 (amended)** — During audio/video fan-out on a named stream, a
subscriber whose callback raises aborts the fan-out (there is no exception
handling in `_notify`): subscribers before it in insertion order received
the delivery, carrying the bytes and timestamp, and subscribers after it
receive nothing; the raising subscriber is not removed and the subscriber
list is unchanged. -/
theorem fanout_abort (pre : List Subscriber) (x : Subscriber)
    (post : List Subscriber) (pub : Option Nat) (data : List Nat)
    (time : Nat) (hpre : ∀ y ∈ pre, y.raises = false)
    (hx : x.raises = true) :
    SubscriberStream.audioDataReceived ⟨pre ++ x :: post, pub⟩ data time =
      (pre.map fun y => (y.id, data, time), true) := by
  unfold SubscriberStream.audioDataReceived
  exact notifyDeliver_abort pre x post data time hpre hx

/-- Witness for the amended C9 at the three-subscriber configuration of the
counterexample. -/
theorem fanout_abort_witness :
    SubscriberStream.audioDataReceived
        ⟨[⟨1, false⟩] ++ ⟨2, true⟩ :: [⟨3, false⟩], none⟩ [9] 7 =
      ([(1, [9], 7)], true) :=
  fanout_abort [⟨1, false⟩] ⟨2, true⟩ [⟨3, false⟩] none [9] 7 (by decide) rfl

/-- Helper: `_notify` delivers to every subscriber when no callback raises. -/
theorem notifyAll_no_raise (l : List Subscriber)
    (h : ∀ y ∈ l, y.raises = false) :
    notifyAll l = (l.map Subscriber.id, false) := by
  induction l with
  | nil => rfl
  | cons y ys ih =>
    have hy : y.raises = false := h y (List.mem_cons_self y ys)
    have hys : ∀ z ∈ ys, z.raises = false :=
      fun z hz => h z (List.mem_cons_of_mem y hz)
    simp only [notifyAll, hy, Bool.false_eq_true, if_false, ih hys,
      List.map_cons]

/-- **C10** — `SubscriberStream.removePublisher p` sets the stream's
publisher to `None` and notifies every subscriber with `streamUnpublished`
(delivery of the full list shown under the assumption that no subscriber
callback raises, cf. C9) for every argument `p`, even when `p` is not the
current publisher or when no publisher is set; the argument is never
compared against the current publisher. -/
theorem removePublisher_ignores_argument (s : SubscriberStream) (p q : Nat) :
    SubscriberStream.removePublisher s p =
      SubscriberStream.removePublisher s q ∧
    (SubscriberStream.removePublisher s p).1.publisher = none ∧
    (SubscriberStream.removePublisher s p).1.subscribers = s.subscribers ∧
    ((∀ y ∈ s.subscribers, y.raises = false) →
      (SubscriberStream.removePublisher s p).2 =
        (s.subscribers.map Subscriber.id, false)) := by
  refine ⟨rfl, rfl, rfl, fun h => ?_⟩
  unfold SubscriberStream.removePublisher
  exact notifyAll_no_raise s.subscribers h

/-- Witness for C10: removing a client that is not the current publisher
still clears the slot and notifies the (single, well-behaved) subscriber. -/
theorem removePublisher_ignores_argument_witness :
    SubscriberStream.removePublisher ⟨[⟨4, false⟩], some 9⟩ 3 =
        SubscriberStream.removePublisher ⟨[⟨4, false⟩], some 9⟩ 8 ∧
      (SubscriberStream.removePublisher ⟨[⟨4, false⟩], some 9⟩ 3).1.publisher =
        none ∧
      (SubscriberStream.removePublisher ⟨[⟨4, false⟩], some 9⟩ 3).1.subscribers =
        [⟨4, false⟩] ∧
      (SubscriberStream.removePublisher ⟨[⟨4, false⟩], some 9⟩ 3).2 =
        ([4], false) := by
  have h := removePublisher_ignores_argument ⟨[⟨4, false⟩], some 9⟩ 3 8
  exact ⟨h.1, h.2.1, h.2.2.1, h.2.2.2 (by decide)⟩

/-- **C8 counterexample** — decoding a `ControlEvent` body holding only the
`u16` subtype and the first `i32` value (6 bytes) does not succeed with
`value2 = value3 = -1`: it fails with the short-read error, because
`ControlEvent.decode` unconditionally reads the subtype and all three
values. -/
theorem control_short_body_counterexample :
    decode CONTROL [0, 6, 0, 0, 0, 1] = .error .eofError ∧
    decode CONTROL [0, 6, 0, 0, 0, 1] ≠
      .ok (.control 6 1 ControlEvent.UNDEFINED ControlEvent.UNDEFINED) := by
  decide

/-- **C8 (amended)** — Decoding a `ControlEvent` whose body omits trailing
values (only the `u16` subtype and the first `i32` value) fails with the
short-read error (decode is strict; the `-1` defaults exist only as
constructor defaults); encoding a `ControlEvent` always writes the subtype
and all three values (a 14-byte body). -/
theorem control_strict_decode_encode (t v1 v2 v3 : Int)
    (ht : -(2 ^ 15) ≤ t ∧ t < 2 ^ 15)
    (h1 : -(2 ^ 31) ≤ v1 ∧ v1 < 2 ^ 31)
    (h2 : -(2 ^ 31) ≤ v2 ∧ v2 < 2 ^ 31)
    (h3 : -(2 ^ 31) ≤ v3 ∧ v3 < 2 ^ 31) :
    decode CONTROL [0, 6, 0, 0, 0, 1] = .error .eofError ∧
    ∃ body, encodeBody (.control t v1 v2 v3) = some body ∧
      body.length = 14 := by
  refine ⟨by decide, ?_⟩
  have ha : write_short t = some (be16 (t % 2 ^ 16).toNat) := by
    rw [write_short, if_pos ht]
  have hb : write_long v1 = some (be32 (v1 % 2 ^ 32).toNat) := by
    rw [write_long, if_pos h1]
  have hc : write_long v2 = some (be32 (v2 % 2 ^ 32).toNat) := by
    rw [write_long, if_pos h2]
  have hd : write_long v3 = some (be32 (v3 % 2 ^ 32).toNat) := by
    rw [write_long, if_pos h3]
  refine ⟨_, encodeBody_control t v1 v2 v3 _ _ _ _ ha hb hc hd, ?_⟩
  simp [be16, be32, List.length_append]

/-- Witness for the amended C8 at the PING control event `(6, 1, -1, -1)`. -/
theorem control_strict_decode_encode_witness :
    ((-(2 ^ 15) ≤ (6 : Int) ∧ (6 : Int) < 2 ^ 15) ∧
        (-(2 ^ 31) ≤ (1 : Int) ∧ (1 : Int) < 2 ^ 31) ∧
        (-(2 ^ 31) ≤ (-1 : Int) ∧ (-1 : Int) < 2 ^ 31)) ∧
      (decode CONTROL [0, 6, 0, 0, 0, 1] = .error .eofError ∧
        ∃ body, encodeBody (.control 6 1 (-1) (-1)) = some body ∧
          body.length = 14) :=
  ⟨⟨by decide, by decide, by decide⟩,
    control_strict_decode_encode 6 1 (-1) (-1) (by decide) (by decide)
      (by decide) (by decide)⟩

end RTMPy
